import Mathlib

/-!
Verification of `capture_mail.py`: a shallow embedding of the mail-capture
tool's core (the header/body transcript formatters and the `capture_mail`
driver) together with theorems settling the specification claims.

Modelling conventions:

* A parsed email message (`email.message.Message`) is a tree `Message`; per
  the spec's capability interface, each node carries the metadata the
  renderer consumes as already-resolved values: the ordered header pairs
  (`msg.keys()` / `msg.get_all`), the lowercased content maintype/subtype
  (`msg.get_content_maintype` / `msg.get_content_type`), the content-type
  parameter list (`msg.get_params()`), the transport charset token
  (`msg.get_charset()`), preamble, epilogue and defect descriptors.
  A node `is_multipart` exactly when its payload is a list of children
  (constructor `multi`); a leaf's payload is the byte sequence returned by
  `msg.get_payload(decode=True)`, each byte a `Nat < 256`.
* Log output is modelled as the ordered list of formatted message strings
  handed to the logger; `capture_mail` tags each with its severity level.
* A raised Python exception is modelled as a `PyErr` (its class name and
  `str(e)` detail) returned in the `Option PyErr` component; lines emitted
  before the raise are kept, later ones are not, and callers either
  propagate (the dump functions) or catch (`capture_mail`'s `except`).
* Python's default `str.rstrip()` is modelled over the ASCII whitespace
  characters (the only ones these claims exercise); `str.lower()` is
  modelled by ASCII lowercasing.
* Of the codec registry, the model embeds the `ascii` codec and its aliases
  (`us-ascii` is the renderer's default); any other name falls to the
  `LookupError` branch. The claims under verification only exercise the
  default codec.
-/

/-- A raised Python exception: its class name and its `str(e)` detail. -/
structure PyErr where
  name : String
  detail : String
deriving DecidableEq, Repr

/-- The per-node metadata of a parsed message, as the renderer reads it off
`email.message.Message` (spec section 9's capability interface). -/
structure NodeInfo where
  /-- `msg.keys()` paired with each header's value: original order and
  multiplicity, names exactly as received. -/
  headers : List (String × String)
  /-- `msg.get_content_maintype()` (already lowercased by the parser). -/
  maintype : String
  /-- the subtype part of `msg.get_content_type()`. -/
  subtype : String
  /-- `msg.get_params()`: the content-type value and its parameters. -/
  params : List (String × String)
  /-- `msg.get_charset()`: the transport charset token, usually `None`. -/
  charset : Option String
  /-- `msg.preamble` (`None` or a string). -/
  preamble : Option String
  /-- `msg.epilogue` (`None` or a string). -/
  epilogue : Option String
  /-- `msg.defects`: each defect's class name and its `str()` detail. -/
  defects : List (String × String)
deriving DecidableEq, Repr

/-- A parsed message tree: `msg.is_multipart()` holds exactly for `multi`,
whose payload is the ordered child list; a `leaf` payload is the byte
string `msg.get_payload(decode=True)`. -/
inductive Message where
  | leaf : NodeInfo → List Nat → Message
  | multi : NodeInfo → List Message → Message

/-- The node metadata of a message (shared by both constructors). -/
def Message.getInfo : Message → NodeInfo
  | .leaf i _ => i
  | .multi i _ => i

/-- Python truthiness of a whitespace character for default `str.rstrip()`
(ASCII subset; see the modelling conventions). -/
def pyWhitespace (c : Char) : Bool :=
  c == ' ' || c == '\t' || c == '\n' || c == '\r' || c == '\x0b' || c == '\x0c'

/-- Python `s.rstrip()` with no argument: drop trailing whitespace. -/
def rstrip (s : String) : String :=
  String.mk ((s.data.reverse.dropWhile pyWhitespace).reverse)

/-- Python `s.lower()` (ASCII lowercasing; header names and charset tokens
in these claims are ASCII). -/
def pyLower (s : String) : String :=
  String.mk (s.data.map Char.toLower)

/-- Python `s.split('\n')`: split at every newline, keeping empty pieces
(`''.split('\n') == ['']`). -/
def pySplitNLAux : List Char → List Char → List String
  | [], acc => [String.mk acc.reverse]
  | c :: rest, acc =>
    if c == '\n' then String.mk acc.reverse :: pySplitNLAux rest []
    else pySplitNLAux rest (c :: acc)

/-- Python `s.split('\n')`. -/
def pySplitNL (s : String) : List String :=
  pySplitNLAux s.data []

/-- Python `sep.join(pieces)`. -/
def pyJoin (sep : String) : List String → String
  | [] => ""
  | [s] => s
  | s :: rest => s ++ sep ++ pyJoin sep rest

/-- Python truthiness of an optional string: `None` and `''` are falsy. -/
def truthyOptStr : Option String → Bool
  | some s => !(s == "")
  | none => false

/-- Python `str(x)` of an optional string: `None` prints as `None`. -/
def pyStrOpt : Option String → String
  | none => "None"
  | some s => s

/-- Python `str()` of the list of pairs `msg.get_params()` returns, e.g.
`[('text/plain', ''), ('charset', 'UTF-8')]` (quote-free values, as in all
inputs exercised here). -/
def pyReprParams (ps : List (String × String)) : String :=
  "[" ++ pyJoin ", "
    (ps.map (fun p => "('" ++ p.1 ++ "', '" ++ p.2 ++ "')")) ++ "]"

/-- `msg.get_param(name)`: the first content-type parameter whose name
matches case-insensitively, if any. -/
def get_param (ps : List (String × String)) (name : String) : Option String :=
  (ps.find? (fun p => pyLower p.1 == pyLower name)).map Prod.snd

/-- `msg.get_all(name)`: every header value whose name matches
case-insensitively, in original order. -/
def get_all (hs : List (String × String)) (name : String) : List String :=
  (hs.filter (fun p => pyLower p.1 == pyLower name)).map Prod.snd

/-- The distinct elements of a list in first-occurrence order: the value of
Python's `sorted(set(keys), key=keys.index)` (each distinct key sorted by
the index of its first occurrence). -/
def dedupFirstAux : List String → List String → List String
  | [], _ => []
  | k :: rest, seen =>
    if k ∈ seen then dedupFirstAux rest seen
    else k :: dedupFirstAux rest (k :: seen)

/-- `sorted(set(keys), key=keys.index)`. -/
def dedupFirst (keys : List String) : List String :=
  dedupFirstAux keys []

/-- Two lowercase hex digits of a byte, as `%02x` prints a value in
`[16, 255]` (decode errors only arise at bytes `≥ 128`). -/
def hexDigit (n : Nat) : Char :=
  if n < 10 then Char.ofNat ('0'.toNat + n) else Char.ofNat ('a'.toNat + n - 10)

/-- Lowercase hex of a byte. -/
def hexByte (b : Nat) : String :=
  String.mk [hexDigit (b / 16), hexDigit (b % 16)]

/-- The `ascii` codec's decoder: bytes below 128 map to the same code
points; a byte `≥ 128` raises `UnicodeDecodeError` with CPython's message. -/
def asciiDecodeAux : List Nat → Nat → Except PyErr (List Char)
  | [], _ => .ok []
  | b :: rest, pos =>
    if b < 128 then
      match asciiDecodeAux rest (pos + 1) with
      | .ok cs => .ok (Char.ofNat b :: cs)
      | .error e => .error e
    else
      .error { name := "UnicodeDecodeError",
               detail := "'ascii' codec can't decode byte 0x" ++ hexByte b ++
                 " in position " ++ toString pos ++
                 ": ordinal not in range(128)" }

/-- Python `encodings.normalize_encoding` (lowercase, non-alphanumerics to
underscores), as codec lookup applies it. -/
def normEnc (s : String) : String :=
  String.mk (s.data.map (fun c => if c.isAlphanum then c.toLower else '_'))

/-- `bytes.decode(encoding)`: the `ascii` codec and its aliases are
embedded (`us-ascii` is the renderer's default); any other name falls to
the codec-registry `LookupError` branch (see the modelling conventions). -/
def pyDecode (encoding : String) (bytes : List Nat) : Except PyErr String :=
  let n := normEnc encoding
  if n == "ascii" || n == "us_ascii" || n == "646" || n == "ansi_x3_4_1968" then
    match asciiDecodeAux bytes 0 with
    | .ok cs => .ok (String.mk cs)
    | .error e => .error e
  else
    .error { name := "LookupError", detail := "unknown encoding: " ++ encoding }

/-- `encoding = msg.get_param('charset'); if not encoding: encoding = 'us-ascii'`. -/
def resolvedEncoding (charsetParam : Option String) : String :=
  if truthyOptStr charsetParam then charsetParam.getD "" else "us-ascii"

section HeaderFormatter

/-- `'>' * n`. -/
def headerMarker (n : Nat) : String :=
  String.mk (List.replicate n '>')

/-- The lines of a multi-value header group (`len(lst) > 1`): the group
header `- key (n items):`, then per value its first physical line as
`- i: line` and continuation lines as `. >…> line`.

The source builds the first-line format as
`'{}- {{:{}<}}: {{}}'.format(prefix, indent_size)`, i.e. the spec
`{indent_size}<`: Python reads `indent_size`'s digit as the FILL character
and `<` as the alignment, with no minimum width, so the index is rendered
unpadded. (Exact for `indent_size ≤ 9`, i.e. fewer than 10^9 + 1 values;
beyond that the spec string is two digits and `str.format` raises.) -/
def multiValueLines (pfx key : String) (lst : List String) : List String :=
  let indent_size := (toString (lst.length - 1)).data.length
  (pfx ++ "- " ++ key ++ " (" ++ toString lst.length ++ " items):") ::
  (lst.enum.flatMap fun ie =>
    ((pySplitNL ie.2).enum.map fun jline =>
      if jline.1 == 0 then
        pfx ++ "- " ++ toString ie.1 ++ ": " ++ rstrip jline.2
      else
        pfx ++ ". " ++ headerMarker (indent_size + 1) ++ " " ++ rstrip jline.2))

/-- The lines of a single-value header group: one `- key: value` line when
the value has one physical line, else `- key:` followed by `-- line` /
`.. line` lines. -/
def singleValueLines (pfx key elem : String) : List String :=
  let lines := pySplitNL elem
  if lines.length > 1 then
    (pfx ++ "- " ++ key ++ ":") ::
    (lines.enum.map fun iline =>
      if iline.1 == 0 then pfx ++ "-- " ++ rstrip iline.2
      else pfx ++ ".. " ++ rstrip iline.2)
  else
    [pfx ++ "- " ++ key ++ ": " ++ rstrip elem]

/-- One key's group: the `len(lst) > 1` branch or the single-value branch.
The `[]` case is unreachable in the formatter (every listed key matches at
least its own header pair). -/
def renderGroup (pfx key : String) (lst : List String) : List String :=
  if lst.length > 1 then
    multiValueLines pfx key lst
  else
    match lst with
    | [elem] => singleValueLines pfx key elem
    | _ => []

/-- `dump_email_header_to_logger(msg, logger, log_level=…, prefix=…)`: the
`Header:` label line, then per distinct key (first-occurrence order) the
group for `msg.get_all(key)`. -/
def dump_email_header_to_logger (msg : Message) (pfx : String) : List String :=
  let keys := msg.getInfo.headers.map Prod.fst
  (pfx ++ "Header:") ::
  ((dedupFirst keys).flatMap fun key =>
    renderGroup pfx key (get_all msg.getInfo.headers key))

end HeaderFormatter

section BodyFormatter

/-- The first line `dump_email_body_to_logger` logs for a node:
`'{}Message content {} (content_type: {}, params: {}, charset: {},
encoding: {}):'` formatted with the prefix, the message index,
`msg.get_content_type()`, `msg.get_params()`, `msg.get_charset()` and the
raw `msg.get_param('charset')` value (before the `us-ascii` default). -/
def summaryLine (pfx message_index : String) (info : NodeInfo) : String :=
  pfx ++ "Message content " ++ message_index ++
  " (content_type: " ++ info.maintype ++ "/" ++ info.subtype ++
  ", params: " ++ pyReprParams info.params ++
  ", charset: " ++ pyStrOpt info.charset ++
  ", encoding: " ++ pyStrOpt (get_param info.params "charset") ++ "):"

/-- The preamble block: when `msg.preamble` is truthy, the label line
`{prefix}preample:` (the source's spelling) and one `{prefix}> ` line per
physical line, right-stripped. -/
def preambleLines (info : NodeInfo) (pfx : String) : List String :=
  if truthyOptStr info.preamble then
    (pfx ++ "preample:") ::
    (pySplitNL (info.preamble.getD "")).map (fun line => pfx ++ "> " ++ rstrip line)
  else []

/-- The defects block: when `msg.defects` is nonempty, the `defects:`
label and one `- kind (detail: …)` line per defect. -/
def defectLines (info : NodeInfo) (pfx : String) : List String :=
  if info.defects.isEmpty then []
  else
    (pfx ++ "defects:") ::
    info.defects.map (fun d => pfx ++ "- " ++ d.1 ++ " (detail: " ++ d.2 ++ ")")

/-- The `AttributeError` raised by the source's epilogue branch: it calls
the nonexistent string method `fromat` (a typo for `format`) before
logging anything, so the epilogue label is never emitted. -/
def fromatErr : PyErr :=
  { name := "AttributeError", detail := "'str' object has no attribute 'fromat'" }

/-- The non-multipart branch: a `text` maintype payload is decoded with the
resolved encoding and emitted line by line as `{prefix}> ` lines (a decode
failure raises); any other maintype yields the single binary-size line. -/
def leafLines (info : NodeInfo) (payload : List Nat) (pfx : String) :
    List String × Option PyErr :=
  if info.maintype == "text" then
    match pyDecode (resolvedEncoding (get_param info.params "charset")) payload with
    | .ok text => ((pySplitNL text).map (fun line => pfx ++ "> " ++ rstrip line), none)
    | .error e => ([], some e)
  else
    ([pfx ++ "> (Possibly binary data with size " ++ toString payload.length ++ ")"], none)

/-- How one node's output comes together after its children or payload
lines (`core`) are known: the node's summary-plus-preamble lines (`own`),
the core lines, then — when nothing has raised so far — the epilogue
branch (which raises `fromatErr` whenever the epilogue is truthy, before
logging its label), then the defects block. A raise keeps the lines
already logged and propagates as the `Option PyErr` component. -/
def assemblePieces (own : List String) (core : List String × Option PyErr)
    (info : NodeInfo) (pfx : String) : List String × Option PyErr :=
  match core.2 with
  | some e => (own ++ core.1, some e)
  | none =>
    if truthyOptStr info.epilogue then
      (own ++ core.1, some fromatErr)
    else
      (own ++ core.1 ++ defectLines info pfx, none)

mutual

/-- `dump_email_body_to_logger(msg, logger, log_level=…, message_index=…,
prefix=…, indent_str=…)`: the summary line, the preamble block, then the
children (multipart) or the payload lines (leaf), then the epilogue
branch and the defects block, assembled by `assemblePieces`. -/
def dump_email_body_to_logger (msg : Message) (message_index pfx indent_str : String) :
    List String × Option PyErr :=
  let core :=
    match msg with
    | .multi _ children => dumpChildren children 1 message_index pfx indent_str
    | .leaf info payload => leafLines info payload pfx
  assemblePieces
    (summaryLine pfx message_index msg.getInfo :: preambleLines msg.getInfo pfx)
    core msg.getInfo pfx

/-- The source's `for i, sub_msg in enumerate(msg.get_payload())` loop,
with `k` the 1-based position of the head (`enumerate`'s `i + 1`): each
child is dumped with index label `{parent}-{k}` and prefix
`prefix + indent_str`; the recursive call leaves `indent_str` at its
default `'  '`. A raise in a child stops the loop and propagates. -/
def dumpChildren (children : List Message) (k : Nat)
    (message_index pfx indent_str : String) : List String × Option PyErr :=
  match children with
  | [] => ([], none)
  | c :: rest =>
    let r := dump_email_body_to_logger c (message_index ++ "-" ++ toString k)
      (pfx ++ indent_str) "  "
    match r.2 with
    | some e => (r.1, some e)
    | none =>
      let w := dumpChildren rest (k + 1) message_index pfx indent_str
      (r.1 ++ w.1, w.2)

end

/-- `dump_email_to_logger(msg, logger, log_level=…, prefix=…, indent_str=…)`:
the header transcript, then the body transcript with the fixed root
message index `'0'`. -/
def dump_email_to_logger (msg : Message) (pfx indent_str : String) :
    List String × Option PyErr :=
  let b := dump_email_body_to_logger msg "0" pfx indent_str
  (dump_email_header_to_logger msg pfx ++ b.1, b.2)

end BodyFormatter

section CaptureMail

/-- A log entry's severity: the transcript is logged at the `INFO` level,
failure reports at the `ERROR` level. -/
inductive Level where
  | info : Level
  | error : Level
deriving DecidableEq, Repr

/-- Args of `capture_mail(args, logger)` that the function reads:
`args.do_bounce` and `args.out_file`. -/
structure Args where
  do_bounce : Bool
  out_file : Option String
deriving DecidableEq, Repr

/-- What a run of `capture_mail` writes: the log entries in order (tagged
with their level), the lines written to the error stream, the lines
written to the capture file, and the returned exit status. -/
structure RunResult where
  log : List (Level × String)
  stderr : List String
  captured : List String
  status : Nat
deriving DecidableEq, Repr

/-- Entries logged at the `INFO` level. -/
def tagInfo (lines : List String) : List (Level × String) :=
  lines.map (fun s => (Level.info, s))

/-- Entries logged at the `ERROR` level. -/
def tagError (lines : List String) : List (Level × String) :=
  lines.map (fun s => (Level.error, s))

/-- Model of `traceback.format_exc().rstrip().split('\n')`: the opening
`Traceback` line and the closing exception line. The stack-frame lines in
between (file paths and source excerpts, which carry no runtime values)
are not modelled. -/
def tracebackLines (e : PyErr) : List String :=
  ["Traceback (most recent call last):", e.name ++ ": " ++ e.detail]

/-- The error-level entries one `logger.error(...)`-plus-traceback handler
produces: the context line (the source's format string has no closing
parenthesis after its second placeholder, so none is rendered), then the
traceback lines. -/
def exceptionLog (context : String) (e : PyErr) : List String :=
  (context ++ " (" ++ e.name ++ ", " ++ e.detail) :: tracebackLines e

/-- The `stdin:` label and the `>>> `-prefixed echo of every input line. -/
def stdinEchoLog (stdinLines : List String) : List String :=
  "stdin:" :: stdinLines.map (fun line => ">>> " ++ rstrip line)

/-- Whether the `open(args.out_file, 'w')` call at the top of the `try`
block raises: only when a capture file is configured and the ambient open
outcome is a failure. -/
def openFailure (args : Args) (openErr : Option PyErr) : Option PyErr :=
  match args.out_file, openErr with
  | some _, some e => some e
  | _, _ => none

/-- The fixed RFC 3463 bounce line written to the error stream. -/
def bounceLine : String := "5.999.999 Testing Error Message"

/-- The `try` block: open the capture file when configured (a failure
skips the rest of the block and raises), echo stdin at the info level,
and render the transcript, whose raise (if any) propagates. -/
def tryPhase (args : Args) (openErr : Option PyErr) (stdinLines : List String)
    (msg : Message) : List (Level × String) × Option PyErr :=
  match openFailure args openErr with
  | some e => ([], some e)
  | none =>
    let d := dump_email_to_logger msg "" "  "
    (tagInfo (stdinEchoLog stdinLines ++ d.1), d.2)

/-- The `except Exception` handler: an escaped raise is logged at the
error level with its traceback; otherwise nothing. -/
def exceptPhase : Option PyErr → List (Level × String)
  | some e => tagError (exceptionLog "Exception raised during handling stdin" e)
  | none => []

/-- The `finally` block: when the capture file was opened, a failing
close is logged at the error level with its traceback. -/
def finallyPhase (opened : Bool) : Option PyErr → List (Level × String)
  | some e =>
    if opened then tagError (exceptionLog "Exception raised during closing out_File" e)
    else []
  | none => []

/-- `capture_mail(args, logger)`.

The environment enters as parameters: `openErr` and `closeErr` are the
outcomes of opening and closing the capture file (`none` = success),
`sysLines` and `envLines` are the lines the out-of-scope system/environment
dumps log, `stdinLines` is standard input, and `msg` is the message tree
`email.parser.FeedParser` builds from it (the feed parser itself never
raises; it records defects instead).

The `try` block opens the capture file when configured (a failure skips
everything else in the block), echoes stdin, and renders the transcript;
`except` logs any raise at the error level with its traceback; `finally`
closes the capture file when it was opened, logging a close failure the
same way. The bounce decision then ignores everything that went before. -/
def capture_mail (args : Args) (openErr closeErr : Option PyErr)
    (sysLines envLines stdinLines : List String) (msg : Message) : RunResult :=
  let opened : Bool := args.out_file.isSome && openErr.isNone
  let t := tryPhase args openErr stdinLines msg
  { log := tagInfo (sysLines ++ envLines) ++ t.1 ++ exceptPhase t.2 ++
      finallyPhase opened closeErr
    stderr := if args.do_bounce then [bounceLine] else []
    captured := if opened then stdinLines else []
    status := if args.do_bounce then 1 else 0 }

end CaptureMail

section SpecSide

/-- Modelled from the spec's words for comparison with the source loop
(section 4.2): "for each child, in order, recurse with: new prefix =
prefix + indentation unit; new index label = `parent-label` + `-` +
1-based child position", children taken with their 0-based `enumerate`
index, siblings never merged, rendering stopped by a raise. -/
def multiChildrenSpec : List (Nat × Message) → String → String → String →
    List String × Option PyErr
  | [], _, _, _ => ([], none)
  | ic :: rest, parentIdx, pfx, ind =>
    let r := dump_email_body_to_logger ic.2 (parentIdx ++ "-" ++ toString (ic.1 + 1))
      (pfx ++ ind) "  "
    match r.2 with
    | some e => (r.1, some e)
    | none =>
      let w := multiChildrenSpec rest parentIdx pfx ind
      (r.1 ++ w.1, w.2)

/-- Modelled from the spec's words (section 4.1): "the distinct-name
ordering follows first occurrence in the original sequence", written as a
left fold that appends each name not yet seen. -/
def specFirstOccur (names : List String) : List String :=
  names.foldl (fun acc k => if k ∈ acc then acc else acc ++ [k]) []

end SpecSide

section Fixtures

/-- A plain `text/plain` node with no headers, params, preamble, epilogue
or defects. -/
def tinfo : NodeInfo :=
  { headers := [], maintype := "text", subtype := "plain", params := [],
    charset := none, preamble := none, epilogue := none, defects := [] }

/-- A plain `multipart/mixed` node with no extras. -/
def minfo : NodeInfo :=
  { headers := [], maintype := "multipart", subtype := "mixed", params := [],
    charset := none, preamble := none, epilogue := none, defects := [] }

/-- Eleven single-line `Received` headers (values `v0` … `v10`). -/
def receivedHeaders : List (String × String) :=
  (List.range 11).map (fun i => ("Received", "v" ++ toString i))

/-- A message carrying the eleven `Received` headers. -/
def msgReceived11 : Message := .leaf { tinfo with headers := receivedHeaders } []

/-- A multipart message of nesting depth 3: the root's only child is a
multipart whose only child is a text leaf with body `hi`. -/
def msgDepth3 : Message := .multi minfo [.multi minfo [.leaf tinfo [104, 105]]]

/-- Headers `A`, `B`, `A`, `C`: duplicate name interleaved with others. -/
def msgABAC : Message :=
  .leaf { tinfo with headers := [("A", "1"), ("B", "2"), ("A", "3"), ("C", "4")] } []

/-- One header name in two spellings: `A` then `a`. -/
def msgAa : Message := .leaf { tinfo with headers := [("A", "1"), ("a", "2")] } []

/-- A text leaf (body `hi`) with a non-empty epilogue. -/
def msgEpilogue : Message := .leaf { tinfo with epilogue := some "tail" } [104, 105]

/-- A three-part multipart: text `a`, then a text part whose sole payload
byte `0x80` cannot be decoded as `us-ascii`, then text `c`. -/
def msgDecodeFail : Message :=
  .multi minfo [.leaf tinfo [97], .leaf tinfo [128], .leaf tinfo [99]]

/-- A one-header text message (body `hi`). -/
def msgSubject : Message := .leaf { tinfo with headers := [("Subject", "s")] } [104, 105]

/-- The `PermissionError` a failing `open` raises. -/
def permErr : PyErr :=
  { name := "PermissionError", detail := "[Errno 13] Permission denied: 'cap'" }

/-- A `text/plain` node declaring `charset=us-ascii` in its content-type
parameters. -/
def infoAscii : NodeInfo :=
  { tinfo with params := [("text/plain", ""), ("charset", "us-ascii")] }

/-- A text leaf with a two-line preamble whose second line has trailing
whitespace. -/
def msgPreamble : Message := .leaf { tinfo with preamble := some "pp\nqq " } [104, 105]

end Fixtures

section Substring

/-- Whether `sub` matches the text at its head. -/
def leadMatch : List Char → List Char → Bool
  | [], _ => true
  | _ :: _, [] => false
  | a :: as, b :: bs => a == b && leadMatch as bs

/-- Whether `sub` occurs anywhere in the text. -/
def occursIn (sub : List Char) : List Char → Bool
  | [] => leadMatch sub []
  | c :: rest => leadMatch sub (c :: rest) || occursIn sub rest

/-- Whether `sub` occurs as a contiguous substring of `s` (Python
`sub in s`). -/
def containsSub (s sub : String) : Bool :=
  occursIn sub.data s.data

end Substring

section MoreDefs

/-- Whether every character of `s` is a 7-bit code point. -/
def allAscii (s : String) : Bool :=
  s.data.all (fun c => c.toNat < 128)

/-- The `us-ascii` encoding of an all-ASCII string: one byte per
character. -/
def asciiBytes (s : String) : List Nat :=
  s.data.map Char.toNat

/-- The `UnicodeDecodeError` raised on the byte `0x80` at position 0. -/
def byte80Err : PyErr :=
  { name := "UnicodeDecodeError",
    detail := "'ascii' codec can't decode byte 0x80 in position 0: ordinal not in range(128)" }

/-- The message with its root preamble replaced. -/
def Message.withPreamble : Message → Option String → Message
  | .leaf i p, v => .leaf { i with preamble := v } p
  | .multi i cs, v => .multi { i with preamble := v } cs

/-- The message with its root epilogue replaced. -/
def Message.withEpilogue : Message → Option String → Message
  | .leaf i p, v => .leaf { i with epilogue := v } p
  | .multi i cs, v => .multi { i with epilogue := v } cs

end MoreDefs

section HelperLemmas

/-- `dedupFirstAux` only reads the membership of its `seen` argument. -/
theorem dedupFirstAux_congr (keys : List String) :
    ∀ s1 s2 : List String, (∀ x, x ∈ s1 ↔ x ∈ s2) →
      dedupFirstAux keys s1 = dedupFirstAux keys s2 := by
  induction keys with
  | nil => intro s1 s2 _; rfl
  | cons k rest ih =>
    intro s1 s2 h
    simp only [dedupFirstAux]
    by_cases hk : k ∈ s1
    · rw [if_pos hk, if_pos ((h k).mp hk), ih s1 s2 h]
    · rw [if_neg hk, if_neg (fun hx => hk ((h k).mpr hx)),
        ih (k :: s1) (k :: s2) (by intro x; simp [h x])]

/-- The first-occurrence fold of the spec agrees with the source's
`sorted(set(keys), key=keys.index)` from any common starting point. -/
theorem foldl_firstOccur (keys : List String) :
    ∀ acc : List String,
      keys.foldl (fun a k => if k ∈ a then a else a ++ [k]) acc =
        acc ++ dedupFirstAux keys acc := by
  induction keys with
  | nil => intro acc; simp [dedupFirstAux]
  | cons k rest ih =>
    intro acc
    simp only [List.foldl, dedupFirstAux]
    by_cases hk : k ∈ acc
    · rw [if_pos hk, if_pos hk, ih acc]
    · rw [if_neg hk, if_neg hk, ih (acc ++ [k]),
        dedupFirstAux_congr rest (acc ++ [k]) (k :: acc) (by intro x; simp [or_comm])]
      simp

/-- `specFirstOccur` is the distinct-keys list the source computes. -/
theorem specFirstOccur_eq_dedupFirst (keys : List String) :
    specFirstOccur keys = dedupFirst keys := by
  have h := foldl_firstOccur keys []
  simpa [specFirstOccur, dedupFirst] using h

/-- The source's child loop, started at 1-based position `k + 1`, renders
the children exactly as the spec's enumerated description from `k`. -/
theorem dumpChildren_eq_spec (children : List Message) :
    ∀ (k : Nat) (parentIdx pfx ind : String),
      dumpChildren children (k + 1) parentIdx pfx ind =
        multiChildrenSpec (children.enumFrom k) parentIdx pfx ind := by
  induction children with
  | nil => intro k parentIdx pfx ind; rfl
  | cons c rest ih =>
    intro k parentIdx pfx ind
    show dumpChildren (c :: rest) (k + 1) parentIdx pfx ind =
      multiChildrenSpec ((k, c) :: rest.enumFrom (k + 1)) parentIdx pfx ind
    rw [dumpChildren, multiChildrenSpec]
    simp only []
    rw [ih (k + 1) parentIdx pfx ind]

/-- Filtering the info-level entries of info-tagged lines keeps them all. -/
theorem filter_info_tagInfo (lines : List String) :
    (tagInfo lines).filter (fun p => p.1 == Level.info) = tagInfo lines := by
  induction lines with
  | nil => rfl
  | cons l rest ih => simp [tagInfo, List.filter, ih]

/-- Error-tagged lines contribute no info-level entries. -/
theorem filter_info_tagError (lines : List String) :
    (tagError lines).filter (fun p => p.1 == Level.info) = [] := by
  induction lines with
  | nil => rfl
  | cons l rest ih => exact ih

/-- Untagging info-tagged lines gives the lines back. -/
theorem map_snd_tagInfo (lines : List String) :
    (tagInfo lines).map Prod.snd = lines := by
  induction lines with
  | nil => rfl
  | cons l rest ih => simp [tagInfo, ih]

/-- The source's loop started at position 1 renders the children as the
spec's 0-based enumeration. -/
theorem dumpChildren_one_eq_spec (children : List Message)
    (parentIdx pfx ind : String) :
    dumpChildren children 1 parentIdx pfx ind =
      multiChildrenSpec children.enum parentIdx pfx ind :=
  dumpChildren_eq_spec children 0 parentIdx pfx ind

/-- With a successful open the `try` block never raises at its head. -/
theorem openFailure_none (args : Args) : openFailure args none = none := by
  unfold openFailure
  cases args.out_file <;> rfl

/-- The `except` handler logs only error-level entries. -/
theorem filter_info_exceptPhase (o : Option PyErr) :
    (exceptPhase o).filter (fun p => p.1 == Level.info) = [] := by
  cases o <;> simp [exceptPhase, filter_info_tagError]

/-- The `finally` block logs only error-level entries. -/
theorem filter_info_finallyPhase (opened : Bool) (o : Option PyErr) :
    (finallyPhase opened o).filter (fun p => p.1 == Level.info) = [] := by
  cases o <;> cases opened <;> simp [finallyPhase, filter_info_tagError]

/-- Decoding the byte-per-character encoding of 7-bit characters with the
`ascii` codec restores the characters, from any starting position. -/
theorem asciiDecodeAux_roundTrip (cs : List Char) :
    ∀ pos : Nat, (∀ c ∈ cs, c.toNat < 128) →
      asciiDecodeAux (cs.map Char.toNat) pos = Except.ok cs := by
  induction cs with
  | nil => intro pos _; rfl
  | cons c rest ih =>
    intro pos h
    have hc : c.toNat < 128 := h c (List.mem_cons_self c rest)
    simp only [List.map, asciiDecodeAux, if_pos hc,
      ih (pos + 1) (fun x hx => h x (List.mem_cons_of_mem c hx)), Char.ofNat_toNat]

/-- `bytes.decode('us-ascii')` restores an all-ASCII string from its
byte-per-character encoding, with no substitution. -/
theorem pyDecode_usAscii (s : String) (h : allAscii s = true) :
    pyDecode "us-ascii" (asciiBytes s) = Except.ok s := by
  have hall : ∀ c ∈ s.data, c.toNat < 128 := by
    intro c hc
    have := List.all_eq_true.mp h c hc
    simpa using this
  show pyDecode "us-ascii" (s.data.map Char.toNat) = Except.ok s
  rw [pyDecode]
  rw [show normEnc "us-ascii" = "us_ascii" from rfl]
  simp only [show (("us_ascii" == "ascii") || ("us_ascii" == "us_ascii") ||
    ("us_ascii" == "646") || ("us_ascii" == "ansi_x3_4_1968")) = true from rfl,
    if_pos, asciiDecodeAux_roundTrip s.data 0 hall]

/-- Whatever a node holds, its first output line is its summary line and
its preamble block comes right after. -/
theorem dump_body_shape (msg : Message) (idx pfx ind : String) :
    ∃ rest, (dump_email_body_to_logger msg idx pfx ind).1 =
      summaryLine pfx idx msg.getInfo :: (preambleLines msg.getInfo pfx ++ rest) := by
  rw [dump_email_body_to_logger.eq_def]
  rcases hcore : (match msg with
    | .multi _ children => dumpChildren children 1 idx pfx ind
    | .leaf info payload => leafLines info payload pfx) with ⟨ls, o⟩
  rw [assemblePieces]
  cases o with
  | some e => exact ⟨ls, by simp [hcore]⟩
  | none =>
    by_cases he : truthyOptStr msg.getInfo.epilogue = true
    · exact ⟨ls, by simp [hcore, he]⟩
    · exact ⟨ls ++ defectLines msg.getInfo pfx, by simp [hcore, he]⟩

end HelperLemmas

section Claims

/-- C1: for every run — whatever the input message, the open/close
outcomes and the environment dumps, i.e. whether or not parsing or
formatting raised — bounce mode enabled writes exactly the line
`5.999.999 Testing Error Message` to the error stream and returns exit
status 1, and bounce mode disabled writes nothing to the error stream and
returns exit status 0: internal failures never change the exit status. -/
theorem capture_mail_bounce_exit (args : Args) (openErr closeErr : Option PyErr)
    (sysLines envLines stdinLines : List String) (msg : Message) :
    (capture_mail args openErr closeErr sysLines envLines stdinLines msg).stderr
        = (if args.do_bounce then [bounceLine] else []) ∧
    (capture_mail args openErr closeErr sysLines envLines stdinLines msg).status
        = (if args.do_bounce then 1 else 0) :=
  ⟨rfl, rfl⟩

/-- C2: at eleven single-line `Received` values the code emits the group
header and eleven value lines (N + 1 lines), but the index field is NOT
padded to the width of the largest index: the `- 0: v0` … `- 9: v9` lines
keep a one-character index where the claim requires `- 0 : v0` padded to
the two-character width of index 10, because the source's format spec
`{:2<}` makes `2` the fill character with no minimum width. -/
theorem header_dup_index_unpadded :
    dump_email_header_to_logger msgReceived11 "" =
      ["Header:", "- Received (11 items):",
       "- 0: v0", "- 1: v1", "- 2: v2", "- 3: v3", "- 4: v4", "- 5: v5",
       "- 6: v6", "- 7: v7", "- 8: v8", "- 9: v9", "- 10: v10"] ∧
    "- 0 : v0" ∉ dump_email_header_to_logger msgReceived11 "" := by
  exact ⟨by rfl, by decide⟩

/-- C5 (code bug): on a message with a non-empty epilogue the body
formatter raises `AttributeError` (`'str' object has no attribute
'fromat'`) before logging the epilogue label, so no epilogue line is ever
emitted; the claim (and the spec's stated intent) is line-by-line
epilogue rendering without error. -/
theorem epilogue_fromat_raises :
    dump_email_body_to_logger msgEpilogue "0" "" "  " =
      (["Message content 0 (content_type: text/plain, params: [], charset: None, encoding: None):",
        "> hi"], some fromatErr) ∧
    fromatErr.name = "AttributeError" := by
  exact ⟨by rfl, rfl⟩

/-- C9 counterexample: with an empty header sequence the header formatter
still emits one line — the constant section label `Header:` — so it does
produce output. -/
theorem header_empty_not_silent :
    dump_email_header_to_logger (Message.leaf tinfo []) "" = ["Header:"] ∧
    dump_email_header_to_logger (Message.leaf tinfo []) "" ≠ [] := by
  exact ⟨by rfl, by decide⟩

/-- C9 (amended): with an empty header sequence the header formatter
emits no per-header lines; its output is exactly the single section label
line `<prefix>Header:`. -/
theorem header_empty_only_label (msg : Message) (pfx : String)
    (h : msg.getInfo.headers = []) :
    dump_email_header_to_logger msg pfx = [pfx ++ "Header:"] := by
  simp [dump_email_header_to_logger, h, dedupFirst, dedupFirstAux]

/-- Witness for `header_empty_only_label` at a concrete header-free
message. -/
theorem header_empty_only_label_witness :
    dump_email_header_to_logger (Message.multi minfo []) "| " = ["| Header:"] :=
  header_empty_only_label (Message.multi minfo []) "| " rfl

/-- C7 counterexample: when opening the capture file fails, the whole
`try` body is skipped — the run's log holds only the error report, no
`stdin:` echo, no `Header:` line and no body transcript, although the
input message has a header and a body. The claim that header and body
transcription still takes place is false. -/
theorem open_failure_no_transcription :
    capture_mail { do_bounce := false, out_file := some "cap" } (some permErr) none
        [] [] ["X"] msgSubject =
      { log := [(Level.error,
            "Exception raised during handling stdin (PermissionError, [Errno 13] Permission denied: 'cap'"),
          (Level.error, "Traceback (most recent call last):"),
          (Level.error, "PermissionError: [Errno 13] Permission denied: 'cap'")],
        stderr := [], captured := [], status := 0 } ∧
    (Level.info, "Header:") ∉
      (capture_mail { do_bounce := false, out_file := some "cap" } (some permErr) none
        [] [] ["X"] msgSubject).log := by
  exact ⟨by rfl, by decide⟩

/-- C7 (amended): a failing open of the configured capture file is
reported as an error-level entry with the exception's traceback, and
capture-file writes are suppressed for the run; but it also aborts all
input processing in the `try` block, so no header or body transcription
takes place, and the exit status still follows the bounce flag alone. -/
theorem open_failure_skips_processing (args : Args) (e : PyErr)
    (closeErr : Option PyErr) (sysLines envLines stdinLines : List String)
    (msg : Message) (h : args.out_file.isSome = true) :
    capture_mail args (some e) closeErr sysLines envLines stdinLines msg =
      { log := tagInfo (sysLines ++ envLines) ++
          tagError (exceptionLog "Exception raised during handling stdin" e),
        stderr := if args.do_bounce then [bounceLine] else [],
        captured := [],
        status := if args.do_bounce then 1 else 0 } := by
  obtain ⟨f, hf⟩ := Option.isSome_iff_exists.mp h
  simp [capture_mail, tryPhase, openFailure, exceptPhase, finallyPhase, hf]
  cases closeErr <;> rfl

/-- Witness for `open_failure_skips_processing` at a concrete failing
open. -/
theorem open_failure_skips_processing_witness :
    capture_mail { do_bounce := true, out_file := some "cap" } (some permErr) none
        ["sysA"] ["envB"] ["line"] msgSubject =
      { log := tagInfo (["sysA"] ++ ["envB"]) ++
          tagError (exceptionLog "Exception raised during handling stdin" permErr),
        stderr := if true then [bounceLine] else [],
        captured := [],
        status := if true then 1 else 0 } :=
  open_failure_skips_processing { do_bounce := true, out_file := some "cap" }
    permErr none ["sysA"] ["envB"] ["line"] msgSubject rfl

end Claims

section ClaimsB

/-- C3 counterexample: in the depth-3 multipart the root is labelled `0`
and its first child `0-1`, but the first child of that child is labelled
`0-1-1` — the label `0-1-2` of the claim's example appears in no output
line. -/
theorem depth3_label_not_0_1_2 :
    dump_email_body_to_logger msgDepth3 "0" "" "  " =
      (["Message content 0 (content_type: multipart/mixed, params: [], charset: None, encoding: None):",
        "  Message content 0-1 (content_type: multipart/mixed, params: [], charset: None, encoding: None):",
        "    Message content 0-1-1 (content_type: text/plain, params: [], charset: None, encoding: None):",
        "    > hi"], none) ∧
    ((dump_email_body_to_logger msgDepth3 "0" "" "  ").1.all
      (fun line => !(containsSub line "0-1-2"))) = true := by
  exact ⟨by rfl, by decide⟩

/-- C3 (amended): a multipart node renders its own summary/preamble block
and then its children exactly as the spec's enumerated description —
in their original order, the child at 0-based position `i` carrying the
index label `parent-label ++ "-" ++ (i + 1)` and the prefix extended by
the indentation unit — so in the depth-3 example the root is `0`, its
first child `0-1`, and the first child of that child `0-1-1`. -/
theorem multipart_children_order_labels :
    (∀ (info : NodeInfo) (children : List Message) (idx pfx ind : String),
      dump_email_body_to_logger (Message.multi info children) idx pfx ind =
        assemblePieces (summaryLine pfx idx info :: preambleLines info pfx)
          (multiChildrenSpec children.enum idx pfx ind) info pfx) ∧
    (dump_email_body_to_logger msgDepth3 "0" "" "  ").1.drop 2 =
      ["    Message content 0-1-1 (content_type: text/plain, params: [], charset: None, encoding: None):",
       "    > hi"] := by
  constructor
  · intro info children idx pfx ind
    rw [dump_email_body_to_logger.eq_def, ← dumpChildren_one_eq_spec children idx pfx ind]
    rfl
  · rfl

/-- C4 counterexample: with one header name in the two spellings `A` and
`a`, the formatter groups by the exact spellings but fetches values
case-insensitively, so it emits two two-item groups each holding BOTH
values; no group holds exactly its own name's values (`- A: 1` and
`- a: 2` are absent). -/
theorem header_mixed_case_not_grouped_by_name :
    dump_email_header_to_logger msgAa "" =
      ["Header:", "- A (2 items):", "- 0: 1", "- 1: 2",
       "- a (2 items):", "- 0: 1", "- 1: 2"] ∧
    "- A: 1" ∉ dump_email_header_to_logger msgAa "" ∧
    "- a: 2" ∉ dump_email_header_to_logger msgAa "" := by
  exact ⟨by rfl, by decide, by decide⟩

/-- C4 (amended): the formatter renders one group per distinct
exactly-as-received header name, in first-occurrence order of the names
(the spec's fold), each group holding every value whose name matches
case-insensitively, in original order; when all occurrences of a name
share one spelling — as in `A, B, A, C` — this is that name's values in
input order. -/
theorem header_groups_first_occurrence :
    (∀ (msg : Message) (pfx : String),
      dump_email_header_to_logger msg pfx =
        (pfx ++ "Header:") ::
        ((specFirstOccur (msg.getInfo.headers.map Prod.fst)).flatMap fun key =>
          renderGroup pfx key (get_all msg.getInfo.headers key))) ∧
    dump_email_header_to_logger msgABAC "" =
      ["Header:", "- A (2 items):", "- 0: 1", "- 1: 3", "- B: 2", "- C: 4"] := by
  constructor
  · intro msg pfx
    rw [dump_email_header_to_logger, specFirstOccur_eq_dedupFirst]
  · rfl

/-- C6 counterexample: on the three-part message whose second part
(index label `0-2`) fails to decode, the error-level entries name the
exception class and detail but none of them contains the failing part's
label `0-2`; the transcript shows the failure aborted rendering (the
summary of part `0-2` is the last transcript line, part `0-3` is never
rendered). -/
theorem decode_error_entry_lacks_part_label :
    ((capture_mail { do_bounce := true, out_file := none } none none [] [] []
        msgDecodeFail).log.filter (fun p => p.1 == Level.error)).map Prod.snd =
      ["Exception raised during handling stdin (UnicodeDecodeError, 'ascii' codec can't decode byte 0x80 in position 0: ordinal not in range(128)",
       "Traceback (most recent call last):",
       "UnicodeDecodeError: 'ascii' codec can't decode byte 0x80 in position 0: ordinal not in range(128)"] ∧
    (((capture_mail { do_bounce := true, out_file := none } none none [] [] []
        msgDecodeFail).log.filter (fun p => p.1 == Level.error)).map Prod.snd).all
      (fun entry => !(containsSub entry "0-2")) = true ∧
    ((capture_mail { do_bounce := true, out_file := none } none none [] [] []
        msgDecodeFail).log.map Prod.snd).any
      (fun entry => containsSub entry "Message content 0-2") = true ∧
    ((capture_mail { do_bounce := true, out_file := none } none none [] [] []
        msgDecodeFail).log.map Prod.snd).any
      (fun entry => containsSub entry "Message content 0-3") = false := by
  exact ⟨by rfl, by decide, by decide, by decide⟩

end ClaimsB

section ClaimsC

/-- C6 (amended): when the transcript rendering raises — as a textual
part's decode failure does — `capture_mail` logs an error-level entry
naming the exception class and its detail (the failing part's index label
is not part of any error entry), the info-level transcript stops exactly
at the lines rendered before the raise (the remainder of the tree is not
rendered), and the run still reaches the normal bounce-vs-success
termination logic. -/
theorem decode_failure_policy (args : Args) (closeErr : Option PyErr)
    (sysLines envLines stdinLines : List String) (msg : Message) (e : PyErr)
    (h : (dump_email_to_logger msg "" "  ").2 = some e) :
    ((Level.error,
        "Exception raised during handling stdin (" ++ e.name ++ ", " ++ e.detail)
      ∈ (capture_mail args none closeErr sysLines envLines stdinLines msg).log) ∧
    ((capture_mail args none closeErr sysLines envLines stdinLines msg).log.filter
        (fun p => p.1 == Level.info)).map Prod.snd =
      sysLines ++ envLines ++ stdinEchoLog stdinLines ++
        (dump_email_to_logger msg "" "  ").1 ∧
    (capture_mail args none closeErr sysLines envLines stdinLines msg).status =
      (if args.do_bounce then 1 else 0) := by
  refine ⟨?_, ?_, rfl⟩
  · simp only [capture_mail, tryPhase, openFailure_none, h, exceptPhase,
      exceptionLog, tagError, List.map, List.mem_append, List.mem_cons]
    tauto
  · simp only [capture_mail, tryPhase, openFailure_none, List.filter_append,
      filter_info_tagInfo, filter_info_exceptPhase, filter_info_finallyPhase,
      List.append_nil, List.map_append, map_snd_tagInfo, List.append_assoc]

end ClaimsC

section ClaimsD

/-- Witness for `decode_failure_policy` at the concrete three-part
message whose second part fails to decode. -/
theorem decode_failure_policy_witness :
    ((Level.error,
        "Exception raised during handling stdin (" ++ byte80Err.name ++ ", " ++
          byte80Err.detail)
      ∈ (capture_mail { do_bounce := false, out_file := none } none none
          ["s"] ["e"] ["in"] msgDecodeFail).log) ∧
    ((capture_mail { do_bounce := false, out_file := none } none none
        ["s"] ["e"] ["in"] msgDecodeFail).log.filter
          (fun p => p.1 == Level.info)).map Prod.snd =
      ["s"] ++ ["e"] ++ stdinEchoLog ["in"] ++
        (dump_email_to_logger msgDecodeFail "" "  ").1 ∧
    (capture_mail { do_bounce := false, out_file := none } none none
        ["s"] ["e"] ["in"] msgDecodeFail).status = (if false then 1 else 0) :=
  decode_failure_policy { do_bounce := false, out_file := none } none
    ["s"] ["e"] ["in"] msgDecodeFail byte80Err (by rfl)

/-- C8: a textual part whose payload bytes are the `us-ascii` encoding of
an all-ASCII string, with the charset either correctly declared as
`us-ascii` or absent (so the resolution defaults to `us-ascii`), decodes
back to exactly the original characters — no substitution — and its body
renders as those characters' lines prefixed `<prefix>> ` with trailing
whitespace stripped, after the summary line. -/
theorem text_ascii_round_trip (info : NodeInfo) (idx pfx ind s : String)
    (hmain : info.maintype = "text")
    (hcs : get_param info.params "charset" = some "us-ascii" ∨
           get_param info.params "charset" = none)
    (hs : allAscii s = true)
    (hpre : info.preamble = none) (hepi : info.epilogue = none)
    (hdef : info.defects = []) :
    pyDecode (resolvedEncoding (get_param info.params "charset")) (asciiBytes s) =
      Except.ok s ∧
    dump_email_body_to_logger (Message.leaf info (asciiBytes s)) idx pfx ind =
      (summaryLine pfx idx info ::
        (pySplitNL s).map (fun line => pfx ++ "> " ++ rstrip line), none) := by
  have henc : resolvedEncoding (get_param info.params "charset") = "us-ascii" := by
    rcases hcs with hcs | hcs <;> rw [hcs] <;> rfl
  have hdec := pyDecode_usAscii s hs
  refine ⟨by rw [henc]; exact hdec, ?_⟩
  rw [dump_email_body_to_logger.eq_def]
  simp only [Message.getInfo, leafLines, hmain, henc, hdec, beq_self_eq_true,
    if_pos, assemblePieces, preambleLines, defectLines, hpre, hepi, hdef,
    truthyOptStr, List.isEmpty_nil, if_true, if_false, Bool.false_eq_true,
    List.append_nil, List.nil_append, List.singleton_append]

/-- Witness for `text_ascii_round_trip` at a concrete declared-charset
part with the two-line body `Hi\nthere`. -/
theorem text_ascii_round_trip_witness :
    pyDecode (resolvedEncoding (get_param infoAscii.params "charset"))
        (asciiBytes "Hi\nthere") = Except.ok "Hi\nthere" ∧
    dump_email_body_to_logger (Message.leaf infoAscii (asciiBytes "Hi\nthere"))
        "0" "" "  " =
      (summaryLine "" "0" infoAscii ::
        (pySplitNL "Hi\nthere").map (fun line => "" ++ "> " ++ rstrip line), none) :=
  text_ascii_round_trip infoAscii "0" "" "  " "Hi\nthere" rfl (Or.inl rfl)
    (by decide) rfl rfl rfl

/-- C10: a non-empty preamble is announced by the literal label line
`<prefix>preample:` (the source's spelling) right after the summary line
and before the preamble's `<prefix>> ` lines; and an empty-string
preamble or epilogue is treated exactly as an absent one — no label line,
no content lines (and, for the epilogue, no raise). -/
theorem preamble_label_and_empty_as_absent (msg : Message) (idx pfx ind : String) :
    (∀ p : String, msg.getInfo.preamble = some p → p ≠ "" →
      ∃ rest, (dump_email_body_to_logger msg idx pfx ind).1 =
        summaryLine pfx idx msg.getInfo :: (pfx ++ "preample:") ::
          ((pySplitNL p).map (fun line => pfx ++ "> " ++ rstrip line) ++ rest)) ∧
    dump_email_body_to_logger (msg.withPreamble (some "")) idx pfx ind =
      dump_email_body_to_logger (msg.withPreamble none) idx pfx ind ∧
    dump_email_body_to_logger (msg.withEpilogue (some "")) idx pfx ind =
      dump_email_body_to_logger (msg.withEpilogue none) idx pfx ind := by
  refine ⟨?_, ?_, ?_⟩
  · intro p hp hne
    obtain ⟨rest, hrest⟩ := dump_body_shape msg idx pfx ind
    refine ⟨rest, ?_⟩
    rw [hrest]
    simp [preambleLines, hp, truthyOptStr, hne]
  · cases msg <;> rfl
  · cases msg <;> rfl

/-- Witness for `preamble_label_and_empty_as_absent` at the concrete
two-line-preamble message. -/
theorem preamble_label_and_empty_witness :
    (∃ rest, (dump_email_body_to_logger msgPreamble "0" "" "  ").1 =
        summaryLine "" "0" msgPreamble.getInfo :: ("" ++ "preample:") ::
          ((pySplitNL "pp\nqq ").map (fun line => "" ++ "> " ++ rstrip line) ++ rest)) ∧
    dump_email_body_to_logger (msgPreamble.withPreamble (some "")) "0" "" "  " =
      dump_email_body_to_logger (msgPreamble.withPreamble none) "0" "" "  " ∧
    dump_email_body_to_logger (msgPreamble.withEpilogue (some "")) "0" "" "  " =
      dump_email_body_to_logger (msgPreamble.withEpilogue none) "0" "" "  " :=
  ⟨(preamble_label_and_empty_as_absent msgPreamble "0" "" "  ").1 "pp\nqq " rfl
      (by decide),
   (preamble_label_and_empty_as_absent msgPreamble "0" "" "  ").2.1,
   (preamble_label_and_empty_as_absent msgPreamble "0" "" "  ").2.2⟩

end ClaimsD
